import Mathlib

/-!
Verification of the drag gesture engine of this repository
(`packages/core/src/engines/DragEngine.ts`).

The engine is embedded shallowly: JS numbers (coordinates, velocities,
timestamps) are modelled as exact rationals `ℚ`, the mutable gesture state
as the record `DragState`, and each event handler of the `DragEngine`
class as a state-transformer function.  The generic `Engine` base class,
the `CoordinatesEngine`, and the timeout/event stores are external
collaborators that are not part of the analysed sources; every definition
that stands in for one of them carries a doc comment starting with
`Modelled from the spec:` and follows the specification's description of
that collaborator.  The kinematics provider (`Engine.compute`'s derived
quantities) is kept abstract as a function parameter `f : KinFn`, since
the specification treats it as an opaque pure function owning
movement/velocity/direction/distance/axis.

Purely platform-facing operations (pointer capture, pointer lock,
DOM listener registration, `setup`'s bounding-rectangle geometry,
`pointerClick`, `bind`) have no effect on the gesture state record and
are therefore not modelled; timers of the timeout store are modelled as
explicit pending slots in the state, and emissions to the consumer
callback are counted by the ghost field `emitCount`.
-/

namespace DragGesture

/-- Two-dimensional vector of exact rational scalars. -/
abbrev Vec2 : Type := ℚ × ℚ

/-- Movement axis as determined by the kinematics provider (`state.axis`). -/
inductive Axis2 : Type
  | x
  | y
deriving DecidableEq

/-- Resolved `preventScrollAxis` configuration value: one of `x`, `y`, `xy`. -/
inductive ScrollAxis : Type
  | x
  | y
  | xy
deriving DecidableEq

/-- Pointer event payload: pointer id, absolute coordinates, pointer-locked
relative movement, DOM event type, timestamp, and whether the target holds
the pointer lock (`document.pointerLockElement === event.target`). -/
structure PointerEvent : Type where
  pid : Option ℕ
  x : ℚ
  y : ℚ
  movementX : ℚ
  movementY : ℚ
  etype : String
  timeStamp : ℚ
  pointerLocked : Bool
deriving DecidableEq

/-- Keyboard event payload: key identifier, the two modifier flags, DOM
event type and timestamp. -/
structure KeyEvent : Type where
  key : String
  shiftKey : Bool
  altKey : Bool
  etype : String
  timeStamp : ℚ
deriving DecidableEq

/-- Derived kinematic quantities owned by the external kinematics
provider: public movement, velocity, direction, internal distance and the
detected axis. -/
structure Kin : Type where
  movement : Vec2
  velocity : Vec2
  direction : Vec2
  _distance : Vec2
  axis : Option Axis2
deriving DecidableEq

/-- Abstract kinematics update: from the previous derived quantities, the
latest raw delta, the accumulated raw movement and the elapsed time,
produce the new derived quantities.  The drag engine only reads the
result; the specification fixes no formula for it. -/
abbrev KinFn : Type := Kin → Vec2 → Vec2 → ℚ → Kin

/-- The drag gesture state.  Fields prefixed with an underscore mirror the
engine-internal fields of the source; `pendingDelay` / `pendingScrollDrag`
model the `dragDelay` / `startPointerDrag` slots of the timeout store
(holding the event captured at scheduling time), `pendingCancel` the
number of `setTimeout` cancellation callbacks still in flight, and
`emitCount` counts emissions to the consumer callback. -/
structure DragState : Type where
  _pointerId : Option ℕ
  _pointerActive : Bool
  _keyboardActive : Bool
  _active : Bool
  _preventScroll : Bool
  _delayed : Bool
  _force : Bool
  canceled : Bool
  tap : Bool
  swipe : Vec2
  values : Vec2
  initial : Vec2
  _delta : Vec2
  _movement : Vec2
  kin : Kin
  etype : Option String
  timeStamp : ℚ
  elapsedTime : ℚ
  pendingDelay : Option PointerEvent
  pendingScrollDrag : Option PointerEvent
  pendingCancel : ℕ
  emitCount : ℕ
deriving DecidableEq

/-- Resolved configuration, as produced by the external config resolver. -/
structure Config : Type where
  pointerCapture : Bool
  pointerLock : Bool
  preventScroll : Bool
  preventScrollAxis : ScrollAxis
  delay : ℚ
  filterTaps : Bool
  swipeVelocity : Vec2
  swipeDistance : Vec2
  swipeDuration : ℚ
deriving DecidableEq

/-- `const DISPLACEMENT = 10`. -/
def DISPLACEMENT : ℚ := 10

/-- `KEYS_DELTA_MAP`: per-arrow-key displacement functions. -/
def keysDeltaMap (key : String) : Option (ℚ → Vec2) :=
  if key = "ArrowRight" then some (fun factor => (DISPLACEMENT * factor, 0))
  else if key = "ArrowLeft" then some (fun factor => (-(DISPLACEMENT * factor), 0))
  else if key = "ArrowUp" then some (fun factor => (0, -(DISPLACEMENT * factor)))
  else if key = "ArrowDown" then some (fun factor => (0, DISPLACEMENT * factor))
  else none

/-- `pointerValues(event)`: the absolute coordinates of a pointer event. -/
def pointerValues (e : PointerEvent) : Vec2 := (e.x, e.y)

/-- Zero kinematic quantities. -/
def kin0 : Kin :=
  { movement := (0, 0), velocity := (0, 0), direction := (0, 0)
    _distance := (0, 0), axis := none }

/-- Modelled from the spec: `Engine.reset` (generic base class, not in the
analysed sources) restores the kinematic quantities, the accumulated raw
movement, the bookkeeping timestamps and the force/active flags to their
defaults at the start of a fresh gesture.  The specification describes
`_delta` as "latest incremental movement since previous sample" and does
not list it among the values re-established at gesture start, so the
in-flight delta is left untouched (the drag engine's key-down handler
stores the keyboard delta before invoking start and accumulates it
afterwards). -/
def superReset (s : DragState) : DragState :=
  { s with _active := false
           _force := false
           _movement := (0, 0)
           kin := kin0
           etype := none
           timeStamp := 0
           elapsedTime := 0 }

/-- `DragEngine.reset` (source lines 20-32): `super.reset()` followed by
resetting the drag-specific fields. -/
def dragReset (s : DragState) : DragState :=
  { superReset s with
      _pointerId := none
      _pointerActive := false
      _keyboardActive := false
      _preventScroll := false
      _delayed := false
      swipe := (0, 0)
      tap := false
      canceled := false }

/-- Modelled from the spec: `Engine.start` — when the gesture is not yet
active, reset the state (through the overriding `DragEngine.reset`),
record the triggering event's timestamp as the start of the gesture, and
switch the internal active flag on. -/
def startS (s : DragState) (t : ℚ) : DragState :=
  if s._active then s
  else { dragReset s with timeStamp := t, _active := true }

/-- Modelled from the spec: the kinematics pass `Engine.compute`.  With an
event it records the event type and timestamp, advances the elapsed time,
and lets the abstract kinematics provider `f` recompute the derived
quantities from the raw delta and accumulated movement.  With no event
(the cancellation path) the kinematics are frozen, exactly as the source
comments: "we run compute with no event so that kinematics won't be
computed". -/
def computeS (f : KinFn) (s : DragState) (info : Option (String × ℚ)) : DragState :=
  match info with
  | none => s
  | some i =>
    let dt := i.2 - s.timeStamp
    let s := { s with etype := some i.1, timeStamp := i.2, elapsedTime := s.elapsedTime + dt }
    { s with kin := f s.kin s._delta s._movement s.elapsedTime }

/-- `DragEngine.setActive` (source lines 62-64). -/
def setActive (s : DragState) : DragState :=
  { s with _active := s._pointerActive || s._keyboardActive }

/-- Modelled from the spec: `Engine.clean` — release the scoped event
listeners and cancel every pending timeout of the timeout store.  The raw
`setTimeout` used by cancellation is not part of the store and survives. -/
def superClean (s : DragState) : DragState :=
  { s with pendingDelay := none, pendingScrollDrag := none }

/-- `DragEngine.clean` (source lines 67-72): `pointerClean()` (a pure
platform side effect), clearing both source-active flags, then
`super.clean()`. -/
def clean (s : DragState) : DragState :=
  superClean { s with _pointerActive := false, _keyboardActive := false }

/-- Modelled from the spec: `Engine.emit` — when the gesture is inactive
the teardown path `clean` runs first, then the current snapshot is handed
to the consumer callback (counted by `emitCount`). -/
def emit (s : DragState) : DragState :=
  let s := if s._active then s else clean s
  { s with emitCount := s.emitCount + 1 }

/-- `DragEngine.startPointerDrag` (source lines 106-114). -/
def startPointerDrag (f : KinFn) (s : DragState) (e : PointerEvent) : DragState :=
  emit (computeS f { s with _active := true, _preventScroll := true, _delayed := false }
    (some (e.etype, e.timeStamp)))

/-- `DragEngine.setupScrollPrevention` (source lines 265-272): the
scroll-blocking listeners are platform side effects; the
`startPointerDrag` forced-activation timer is armed with the current
event. -/
def setupScrollPrevention (s : DragState) (e : PointerEvent) : DragState :=
  { s with pendingScrollDrag := some e }

/-- `DragEngine.setupDelayTrigger` (source lines 274-277). -/
def setupDelayTrigger (s : DragState) (e : PointerEvent) : DragState :=
  { s with _delayed := true, pendingDelay := some e }

/-- The capture prefix of `pointerDown` (source lines 88-95): start the
gesture, capture the pointer id, mark the pointer source active and
snapshot the initial values. -/
def pointerDownCapture (s : DragState) (e : PointerEvent) : DragState :=
  { startS s e.timeStamp with
      _pointerId := e.pid, _pointerActive := true
      values := pointerValues e, initial := pointerValues e }

/-- `DragEngine.pointerDown` (source lines 74-104).  `setEventIds`,
pointer capture and `setupPointer` are platform side effects. -/
def pointerDown (cfg : Config) (f : KinFn) (s : DragState) (e : PointerEvent) : DragState :=
  if s._pointerActive = true then s
  else if cfg.preventScroll = true then setupScrollPrevention (pointerDownCapture s e) e
  else if 0 < cfg.delay then setupDelayTrigger (pointerDownCapture s e) e
  else startPointerDrag f (pointerDownCapture s e) e

/-- The per-event delta of an accepted pointer move: the platform-reported
relative movement under pointer lock, otherwise the difference between the
current and the previously stored absolute position (source lines
131-136). -/
def moveDelta (s : DragState) (e : PointerEvent) : Vec2 :=
  if e.pointerLocked then (e.movementX, e.movementY)
  else pointerValues e - s.values

/-- The delta/accumulation/kinematics prefix of `pointerMove` (source
lines 129-139): store the delta (advancing the stored absolute position
only when not pointer-locked), accumulate it into the raw movement, then
run the kinematics pass with the event. -/
def moveAccum (f : KinFn) (s : DragState) (e : PointerEvent) : DragState :=
  let s :=
    if e.pointerLocked then { s with _delta := (e.movementX, e.movementY) }
    else { s with _delta := pointerValues e - s.values, values := pointerValues e }
  let s := { s with _movement := s._movement + s._delta }
  computeS f s (some (e.etype, e.timeStamp))

/-- `state.axis === config.preventScrollAxis || config.preventScrollAxis
=== 'xy'` (source line 149). -/
def axisBlocked (a : Axis2) (p : ScrollAxis) : Bool :=
  match a, p with
  | .x, .x => true
  | .y, .y => true
  | _, .xy => true
  | _, _ => false

/-- The branching tail of `pointerMove` after delta accumulation and the
kinematics pass (source lines 141-163). -/
def postAccum (cfg : Config) (f : KinFn) (s : DragState) (e : PointerEvent) : DragState :=
  if s._delayed = true then
    startPointerDrag f { s with pendingDelay := none } e
  else if cfg.preventScroll = true ∧ s._preventScroll = false then
    match s.kin.axis with
    | some a =>
      if axisBlocked a cfg.preventScrollAxis = true then clean { s with _active := false }
      else startPointerDrag f { s with pendingScrollDrag := none } e
    | none => s
  else emit s

/-- `DragEngine.pointerMove` (source lines 116-164): the three rejection
guards, then delta accumulation and the phase-dependent tail. -/
def pointerMove (cfg : Config) (f : KinFn) (s : DragState) (e : PointerEvent) : DragState :=
  if s._pointerActive = false then s
  else if s.etype = some e.etype ∧ e.timeStamp = s.timeStamp then s
  else if s._pointerId.isSome = true ∧ e.pid ≠ s._pointerId then s
  else postAccum cfg f (moveAccum f s e) e

/-- A pointer-move event passes all three rejection guards of
`pointerMove` in state `s`. -/
def moveAccepted (s : DragState) (e : PointerEvent) : Prop :=
  ¬(s._pointerActive = false) ∧
  ¬(s.etype = some e.etype ∧ e.timeStamp = s.timeStamp) ∧
  ¬(s._pointerId.isSome = true ∧ e.pid ≠ s._pointerId)

instance (s : DragState) (e : PointerEvent) : Decidable (moveAccepted s e) := by
  unfold moveAccepted
  exact inferInstance

/-- The final kinematics pass of `pointerUp` (source lines 189-191):
clear the pointer source flag, rederive the active flag, run compute with
the event. -/
def pointerUpKin (f : KinFn) (s : DragState) (e : PointerEvent) : DragState :=
  computeS f (setActive { s with _pointerActive := false }) (some (e.etype, e.timeStamp))

/-- The tap test of `pointerUp` (source lines 193-194). -/
def pointerUpTapped (f : KinFn) (s : DragState) (e : PointerEvent) : DragState :=
  let s := pointerUpKin f s e
  { s with tap := decide (s.kin._distance.1 ≤ 3 ∧ s.kin._distance.2 ≤ 3) }

/-- The x-axis swipe test of `pointerUp` (source line 207). -/
def swipeX (cfg : Config) (s : DragState) : DragState :=
  if |s.kin.velocity.1| > cfg.swipeVelocity.1 ∧ |s.kin.movement.1| > cfg.swipeDistance.1 then
    { s with swipe := (s.kin.direction.1, s.swipe.2) }
  else s

/-- The y-axis swipe test of `pointerUp` (source line 208). -/
def swipeY (cfg : Config) (s : DragState) : DragState :=
  if |s.kin.velocity.2| > cfg.swipeVelocity.2 ∧ |s.kin.movement.2| > cfg.swipeDistance.2 then
    { s with swipe := (s.swipe.1, s.kin.direction.2) }
  else s

/-- The classification tail of `pointerUp` (source lines 196-210): the
filtered-tap force, otherwise the duration-gated swipe tests. -/
def applySwipe (cfg : Config) (s : DragState) : DragState :=
  if s.tap = true ∧ cfg.filterTaps = true then { s with _force := true }
  else if s.elapsedTime < cfg.swipeDuration then swipeY cfg (swipeX cfg s)
  else s

/-- The accepted path of `pointerUp`: final kinematics pass, tap test,
classification, emission. -/
def pointerUpFlow (cfg : Config) (f : KinFn) (s : DragState) (e : PointerEvent) : DragState :=
  emit (applySwipe cfg (pointerUpTapped f s e))

/-- `DragEngine.pointerUp` (source lines 166-213): `setEventIds` and the
pointer-capture release (with its development-only warning) are platform
side effects; then the two rejection guards and the accepted path. -/
def pointerUp (cfg : Config) (f : KinFn) (s : DragState) (e : PointerEvent) : DragState :=
  if s._pointerActive = false then s
  else if s._pointerId.isSome = true ∧ e.pid ≠ s._pointerId then s
  else pointerUpFlow cfg f s e

/-- `DragEngine.cancel` (source lines 50-60), call part: when not yet
canceled, enqueue the deferred cancellation callback (`setTimeout`);
when already canceled, do nothing. -/
def cancelRequest (s : DragState) : DragState :=
  if s.canceled then s
  else { s with pendingCancel := s.pendingCancel + 1 }

/-- `DragEngine.cancel` (source lines 53-59), deferred callback: set the
terminal flag, force inactive, run the kinematics pass with no event, and
emit. -/
def cancelFire (f : KinFn) (s : DragState) : DragState :=
  if s.pendingCancel = 0 then s
  else
    emit (computeS f
      { s with pendingCancel := s.pendingCancel - 1, canceled := true, _active := false } none)

/-- The keyboard modifier factor of `keyDown` (source line 284):
`event.shiftKey ? 10 : event.altKey ? 0.1 : 1`. -/
def keyFactor (e : KeyEvent) : ℚ :=
  if e.shiftKey then 10 else if e.altKey then 1 / 10 else 1

/-- `DragEngine.keyDown` (source lines 279-295), in source order: look up
the delta function, store the factored delta, start the gesture, mark the
keyboard source active, accumulate the delta, compute and emit. -/
def keyDown (f : KinFn) (s : DragState) (e : KeyEvent) : DragState :=
  match keysDeltaMap e.key with
  | none => s
  | some deltaFn =>
    let s := { s with _delta := deltaFn (keyFactor e) }
    let s := startS s e.timeStamp
    let s := { s with _keyboardActive := true }
    let s := { s with _movement := s._movement + s._delta }
    emit (computeS f s (some (e.etype, e.timeStamp)))

/-- `DragEngine.keyUp` (source lines 297-304). -/
def keyUp (f : KinFn) (s : DragState) (e : KeyEvent) : DragState :=
  if (keysDeltaMap e.key).isSome then
    let s := setActive { s with _keyboardActive := false }
    emit (computeS f s (some (e.etype, e.timeStamp)))
  else s

/-- Firing of the `dragDelay` timeout armed by `setupDelayTrigger`:
`startPointerDrag` with the pointer-down event captured at scheduling
time.  A fired timer leaves the store. -/
def delayTimerFire (f : KinFn) (s : DragState) : DragState :=
  match s.pendingDelay with
  | none => s
  | some e => startPointerDrag f { s with pendingDelay := none } e

/-- Firing of the `startPointerDrag` timeout armed by
`setupScrollPrevention`. -/
def scrollTimerFire (f : KinFn) (s : DragState) : DragState :=
  match s.pendingScrollDrag with
  | none => s
  | some e => startPointerDrag f { s with pendingScrollDrag := none } e

/-- The state as established by `reset` on a freshly bound engine. -/
def initState : DragState :=
  { _pointerId := none, _pointerActive := false, _keyboardActive := false
    _active := false, _preventScroll := false, _delayed := false
    _force := false, canceled := false, tap := false, swipe := (0, 0)
    values := (0, 0), initial := (0, 0), _delta := (0, 0), _movement := (0, 0)
    kin := kin0, etype := none, timeStamp := 0, elapsedTime := 0
    pendingDelay := none, pendingScrollDrag := none, pendingCancel := 0
    emitCount := 0 }

/-- A trivial kinematics provider (used to instantiate theorems on
concrete runs). -/
def constKin : KinFn := fun k _ _ _ => k

/-- Iterated pointer-move handling over a list of events. -/
def runMoves (cfg : Config) (f : KinFn) (s : DragState) (es : List PointerEvent) : DragState :=
  es.foldl (pointerMove cfg f) s

/-- The per-event deltas produced along a trajectory of pointer-move
events. -/
def deltasAlong (cfg : Config) (f : KinFn) : DragState → List PointerEvent → List Vec2
  | _, [] => []
  | s, e :: es => moveDelta s e :: deltasAlong cfg f (pointerMove cfg f s e) es

/-- Every event of the list passes the rejection guards of `pointerMove`
in the state at which it arrives. -/
def acceptedAlong (cfg : Config) (f : KinFn) : DragState → List PointerEvent → Prop
  | _, [] => True
  | s, e :: es => moveAccepted s e ∧ acceptedAlong cfg f (pointerMove cfg f s e) es

instance acceptedAlong.instDecidable (cfg : Config) (f : KinFn) :
    ∀ (s : DragState) (es : List PointerEvent), Decidable (acceptedAlong cfg f s es)
  | _, [] => isTrue trivial
  | s, e :: es =>
    @instDecidableAnd _ _ inferInstance
      (acceptedAlong.instDecidable cfg f (pointerMove cfg f s e) es)

/-- The invariant claimed by the specification: the internal active flag
is the logical OR of the two source flags. -/
def activeInv (s : DragState) : Prop :=
  s._active = (s._pointerActive || s._keyboardActive)

/-- Auxiliary invariant: an armed activation timer (delay or
scroll-prevention) implies the gesture is internally active. -/
def pendingInv (s : DragState) : Prop :=
  (s.pendingDelay.isSome = true ∨ s.pendingScrollDrag.isSome = true) → s._active = true

/-- The inductive invariant combining `activeInv` with the timer
bookkeeping it needs. -/
def dragInv (s : DragState) : Prop := activeInv s ∧ pendingInv s

instance (s : DragState) : Decidable (activeInv s) := by
  unfold activeInv
  exact inferInstance

instance (s : DragState) : Decidable (pendingInv s) := by
  unfold pendingInv
  exact inferInstance

instance (s : DragState) : Decidable (dragInv s) := by
  unfold dragInv
  exact inferInstance

/-- One invocation of any drag-engine handler other than the bare `clean`
teardown: the pointer handlers, the key handlers, the two halves of the
deferred cancellation, and the two activation timers. -/
inductive HandlerStep (cfg : Config) (f : KinFn) : DragState → DragState → Prop
  | pointerDownStep (s : DragState) (e : PointerEvent) :
      HandlerStep cfg f s (pointerDown cfg f s e)
  | pointerMoveStep (s : DragState) (e : PointerEvent) :
      HandlerStep cfg f s (pointerMove cfg f s e)
  | pointerUpStep (s : DragState) (e : PointerEvent) :
      HandlerStep cfg f s (pointerUp cfg f s e)
  | keyDownStep (s : DragState) (e : KeyEvent) :
      HandlerStep cfg f s (keyDown f s e)
  | keyUpStep (s : DragState) (e : KeyEvent) :
      HandlerStep cfg f s (keyUp f s e)
  | cancelRequestStep (s : DragState) :
      HandlerStep cfg f s (cancelRequest s)
  | cancelFireStep (s : DragState) :
      HandlerStep cfg f s (cancelFire f s)
  | delayTimerStep (s : DragState) :
      HandlerStep cfg f s (delayTimerFire f s)
  | scrollTimerStep (s : DragState) :
      HandlerStep cfg f s (scrollTimerFire f s)

/-- Basic resolved configuration for concrete runs: no scroll prevention,
no delay, no tap filter, swipe thresholds `velocity (5, 5)`,
`distance (40, 40)`, `duration 220`. -/
def cfg0 : Config :=
  { pointerCapture := true, pointerLock := false, preventScroll := false
    preventScrollAxis := .y, delay := 0, filterTaps := false
    swipeVelocity := (5, 5), swipeDistance := (40, 40), swipeDuration := 220 }

/-- `cfg0` with scroll prevention on the `y` axis. -/
def cfgScroll : Config := { cfg0 with preventScroll := true }

/-- `cfg0` with an activation delay of 200. -/
def cfgDelay : Config := { cfg0 with delay := 200 }

/-- A pointer-down event of pointer 1 at the origin. -/
def evDown0 : PointerEvent :=
  { pid := some 1, x := 0, y := 0, movementX := 0, movementY := 0
    etype := "pointerdown", timeStamp := 0, pointerLocked := false }

/-- A pointer-move event of pointer 1. -/
def evMove1 : PointerEvent :=
  { pid := some 1, x := 30, y := 0, movementX := 0, movementY := 0
    etype := "pointermove", timeStamp := 20, pointerLocked := false }

/-- A later pointer-move event of pointer 1. -/
def evMove2 : PointerEvent :=
  { pid := some 1, x := 50, y := 10, movementX := 0, movementY := 0
    etype := "pointermove", timeStamp := 40, pointerLocked := false }

/-- A pointer-move event of the foreign pointer 2. -/
def evMoveForeign : PointerEvent :=
  { pid := some 2, x := 80, y := 0, movementX := 0, movementY := 0
    etype := "pointermove", timeStamp := 25, pointerLocked := false }

/-- A pointer-up event of pointer 1. -/
def evUp1 : PointerEvent :=
  { pid := some 1, x := 50, y := 10, movementX := 0, movementY := 0
    etype := "pointerup", timeStamp := 60, pointerLocked := false }

/-- A right-arrow key-down with the fast (shift) modifier. -/
def keyRightFast : KeyEvent :=
  { key := "ArrowRight", shiftKey := true, altKey := false
    etype := "keydown", timeStamp := 5 }

/-- A right-arrow key-down with the fine (alt) modifier. -/
def keyRightFine : KeyEvent :=
  { key := "ArrowRight", shiftKey := false, altKey := true
    etype := "keydown", timeStamp := 5 }

/-- An unrecognized key event. -/
def keyEscape : KeyEvent :=
  { key := "Escape", shiftKey := false, altKey := false
    etype := "keydown", timeStamp := 5 }

/-- A left-arrow key-up event. -/
def keyUpLeft : KeyEvent :=
  { key := "ArrowLeft", shiftKey := false, altKey := false
    etype := "keyup", timeStamp := 9 }

/-- A kinematics provider reporting a distance of `(4, 0)`. -/
def kinDist4 : KinFn :=
  fun _ _ _ _ => { kin0 with _distance := (4, 0) }

/-- A kinematics provider reporting the swipe example of the
specification: velocity `6` against threshold `5`, movement `50` against
threshold `40`, direction `1` on the x axis. -/
def kinSwipeX : KinFn :=
  fun _ _ _ _ =>
    { movement := (50, 0), velocity := (6, 0), direction := (1, 0)
      _distance := (50, 0), axis := some .x }

/-- A kinematics provider resolving the axis to `y`. -/
def kinAxisY : KinFn := fun _ _ _ _ => { kin0 with axis := some .y }

/-- A kinematics provider resolving the axis to `x`. -/
def kinAxisX : KinFn := fun _ _ _ _ => { kin0 with axis := some .x }

/-- A concrete mid-drag state: pointer 1 captured and dragging. -/
def sDrag1 : DragState :=
  { initState with _pointerId := some 1, _pointerActive := true
                   _active := true, _preventScroll := true }

/-- A concrete scroll-pending state: pointer 1 captured, the
forced-activation timer armed, the scroll decision not yet taken. -/
def sPend1 : DragState :=
  { initState with _pointerId := some 1, _pointerActive := true
                   _active := true, pendingScrollDrag := some evDown0 }

/-- A concrete delay-pending state: pointer 1 captured, the delay timer
armed with the pointer-down event. -/
def sDelay1 : DragState :=
  { initState with _pointerId := some 1, _pointerActive := true
                   _active := true, _delayed := true
                   pendingDelay := some evDown0 }

/-! ### Unfolding and frame lemmas -/

lemma computeS_none (f : KinFn) (s : DragState) : computeS f s none = s := rfl

lemma computeS_some (f : KinFn) (s : DragState) (i : String × ℚ) :
    computeS f s (some i) =
      { s with etype := some i.1, timeStamp := i.2
               elapsedTime := s.elapsedTime + (i.2 - s.timeStamp)
               kin := f s.kin s._delta s._movement
                 (s.elapsedTime + (i.2 - s.timeStamp)) } := rfl

lemma clean_eq (s : DragState) :
    clean s = { s with _pointerActive := false, _keyboardActive := false
                       pendingDelay := none, pendingScrollDrag := none } := rfl

lemma emit_active (s : DragState) (h : s._active = true) :
    emit s = { s with emitCount := s.emitCount + 1 } := by
  unfold emit
  simp [h]

lemma emit_inactive (s : DragState) (h : s._active = false) :
    emit s = { s with _pointerActive := false, _keyboardActive := false
                      pendingDelay := none, pendingScrollDrag := none
                      emitCount := s.emitCount + 1 } := by
  unfold emit
  simp [h, clean, superClean]

@[simp] lemma emit_tap (s : DragState) : (emit s).tap = s.tap := by
  unfold emit clean superClean
  split <;> rfl

@[simp] lemma emit_swipe (s : DragState) : (emit s).swipe = s.swipe := by
  unfold emit clean superClean
  split <;> rfl

@[simp] lemma emit_movementRaw (s : DragState) : (emit s)._movement = s._movement := by
  unfold emit clean superClean
  split <;> rfl

@[simp] lemma emit_deltaRaw (s : DragState) : (emit s)._delta = s._delta := by
  unfold emit clean superClean
  split <;> rfl

@[simp] lemma emit_activeFlag (s : DragState) : (emit s)._active = s._active := by
  unfold emit clean superClean
  split <;> rfl

@[simp] lemma emit_timeStamp (s : DragState) : (emit s).timeStamp = s.timeStamp := by
  unfold emit clean superClean
  split <;> rfl

@[simp] lemma emit_canceledFlag (s : DragState) : (emit s).canceled = s.canceled := by
  unfold emit clean superClean
  split <;> rfl

@[simp] lemma emit_preventScrollFlag (s : DragState) :
    (emit s)._preventScroll = s._preventScroll := by
  unfold emit clean superClean
  split <;> rfl

@[simp] lemma emit_delayedFlag (s : DragState) : (emit s)._delayed = s._delayed := by
  unfold emit clean superClean
  split <;> rfl

@[simp] lemma emit_emitCount (s : DragState) : (emit s).emitCount = s.emitCount + 1 := by
  unfold emit clean superClean
  split <;> rfl

lemma swipeX_frame (cfg : Config) (s : DragState) :
    (swipeX cfg s).tap = s.tap ∧ (swipeX cfg s).kin = s.kin ∧
    (swipeX cfg s).elapsedTime = s.elapsedTime ∧
    (swipeX cfg s)._active = s._active ∧
    (swipeX cfg s).swipe.1 =
      (if |s.kin.velocity.1| > cfg.swipeVelocity.1 ∧ |s.kin.movement.1| > cfg.swipeDistance.1
       then s.kin.direction.1 else s.swipe.1) ∧
    (swipeX cfg s).swipe.2 = s.swipe.2 := by
  unfold swipeX
  split <;> simp_all

lemma swipeY_frame (cfg : Config) (s : DragState) :
    (swipeY cfg s).tap = s.tap ∧ (swipeY cfg s).kin = s.kin ∧
    (swipeY cfg s)._active = s._active ∧
    (swipeY cfg s).swipe.1 = s.swipe.1 ∧
    (swipeY cfg s).swipe.2 =
      (if |s.kin.velocity.2| > cfg.swipeVelocity.2 ∧ |s.kin.movement.2| > cfg.swipeDistance.2
       then s.kin.direction.2 else s.swipe.2) := by
  unfold swipeY
  split <;> simp_all

lemma pointerUp_accepted (cfg : Config) (f : KinFn) (s : DragState) (e : PointerEvent)
    (hact : s._pointerActive = true)
    (hid : ¬(s._pointerId.isSome = true ∧ e.pid ≠ s._pointerId)) :
    pointerUp cfg f s e = pointerUpFlow cfg f s e := by
  unfold pointerUp
  rw [if_neg (by simp [hact]), if_neg hid]

lemma pointerUpTapped_eq (f : KinFn) (s : DragState) (e : PointerEvent) :
    pointerUpTapped f s e =
      { pointerUpKin f s e with
          tap := decide ((pointerUpKin f s e).kin._distance.1 ≤ 3 ∧
                         (pointerUpKin f s e).kin._distance.2 ≤ 3) } := rfl

@[simp] lemma pointerUpTapped_swipe (f : KinFn) (s : DragState) (e : PointerEvent) :
    (pointerUpTapped f s e).swipe = s.swipe := rfl

@[simp] lemma applySwipe_tap (cfg : Config) (s : DragState) :
    (applySwipe cfg s).tap = s.tap := by
  unfold applySwipe
  split_ifs
  · rfl
  · rw [(swipeY_frame cfg (swipeX cfg s)).1, (swipeX_frame cfg s).1]
  · rfl

lemma pointerMove_accepted_eq (cfg : Config) (f : KinFn) (s : DragState) (e : PointerEvent)
    (h : moveAccepted s e) :
    pointerMove cfg f s e = postAccum cfg f (moveAccum f s e) e := by
  unfold pointerMove
  rw [if_neg h.1, if_neg h.2.1, if_neg h.2.2]

lemma moveAccum_frame (f : KinFn) (s : DragState) (e : PointerEvent) :
    (moveAccum f s e)._movement = s._movement + moveDelta s e ∧
    (moveAccum f s e)._pointerActive = s._pointerActive ∧
    (moveAccum f s e)._keyboardActive = s._keyboardActive ∧
    (moveAccum f s e)._active = s._active ∧
    (moveAccum f s e)._preventScroll = s._preventScroll ∧
    (moveAccum f s e)._delayed = s._delayed ∧
    (moveAccum f s e).pendingDelay = s.pendingDelay ∧
    (moveAccum f s e).pendingScrollDrag = s.pendingScrollDrag ∧
    (moveAccum f s e).emitCount = s.emitCount ∧
    (moveAccum f s e).timeStamp = e.timeStamp ∧
    (moveAccum f s e).kin =
      f s.kin (moveDelta s e) (s._movement + moveDelta s e)
        (s.elapsedTime + (e.timeStamp - s.timeStamp)) := by
  by_cases hl : e.pointerLocked <;>
    simp [moveAccum, moveDelta, computeS_some, hl]

lemma startPointerDrag_fields (f : KinFn) (s : DragState) (e : PointerEvent) :
    (startPointerDrag f s e)._active = true ∧
    (startPointerDrag f s e)._preventScroll = true ∧
    (startPointerDrag f s e)._delayed = false ∧
    (startPointerDrag f s e)._pointerActive = s._pointerActive ∧
    (startPointerDrag f s e)._keyboardActive = s._keyboardActive ∧
    (startPointerDrag f s e).pendingDelay = s.pendingDelay ∧
    (startPointerDrag f s e).pendingScrollDrag = s.pendingScrollDrag ∧
    (startPointerDrag f s e).timeStamp = e.timeStamp ∧
    (startPointerDrag f s e).emitCount = s.emitCount + 1 := by
  unfold startPointerDrag
  rw [computeS_some, emit_active _ rfl]
  simp

@[simp] lemma startPointerDrag_movement (f : KinFn) (s : DragState) (e : PointerEvent) :
    (startPointerDrag f s e)._movement = s._movement := by
  unfold startPointerDrag
  rw [computeS_some, emit_movementRaw]

@[simp] lemma clean_movement (s : DragState) : (clean s)._movement = s._movement := rfl

lemma postAccum_movement (cfg : Config) (f : KinFn) (t : DragState) (e : PointerEvent) :
    (postAccum cfg f t e)._movement = t._movement := by
  unfold postAccum
  split
  · simp
  · split
    · split
      · split
        · simp [clean_eq]
        · simp
      · rfl
    · simp

lemma pointerMove_movement_step (cfg : Config) (f : KinFn) (s : DragState)
    (e : PointerEvent) (h : moveAccepted s e) :
    (pointerMove cfg f s e)._movement = s._movement + moveDelta s e := by
  rw [pointerMove_accepted_eq cfg f s e h, postAccum_movement, (moveAccum_frame f s e).1]

/-! ### Invariant-preservation lemmas for the active-flag invariant -/

lemma startS_active (s : DragState) (t : ℚ) : (startS s t)._active = true := by
  unfold startS
  split
  · assumption
  · rfl

lemma pointerDownCapture_active (s : DragState) (e : PointerEvent) :
    (pointerDownCapture s e)._active = true := startS_active s e.timeStamp

lemma pointerDownCapture_pointer (s : DragState) (e : PointerEvent) :
    (pointerDownCapture s e)._pointerActive = true := rfl

lemma dragInv_transfer (s t : DragState)
    (h1 : t._active = s._active) (h2 : t._pointerActive = s._pointerActive)
    (h3 : t._keyboardActive = s._keyboardActive)
    (h4 : t.pendingDelay = s.pendingDelay) (h5 : t.pendingScrollDrag = s.pendingScrollDrag)
    (h : dragInv s) : dragInv t := by
  obtain ⟨ha, hp⟩ := h
  unfold activeInv at ha
  refine ⟨?_, ?_⟩
  · unfold activeInv
    rw [h1, h2, h3]
    exact ha
  · unfold pendingInv at hp ⊢
    rw [h1, h4, h5]
    exact hp

lemma dragInv_of_active_true (s : DragState) (h : s._active = true)
    (hsrc : s._pointerActive = true ∨ s._keyboardActive = true) : dragInv s := by
  refine ⟨?_, fun _ => h⟩
  unfold activeInv
  rw [h]
  rcases hsrc with h1 | h1
  · rw [h1, Bool.true_or]
  · rw [h1, Bool.or_true]

lemma dragInv_emit (s : DragState) (h : s._active = true → activeInv s) :
    dragInv (emit s) := by
  by_cases ha : s._active = true
  · rw [emit_active s ha]
    have hinv := h ha
    unfold activeInv at hinv
    refine ⟨?_, fun _ => ?_⟩
    · unfold activeInv
      simpa using hinv
    · simpa using ha
  · have hf : s._active = false := by
      cases hb : s._active
      · rfl
      · exact absurd hb ha
    rw [emit_inactive s hf]
    refine ⟨?_, ?_⟩
    · unfold activeInv
      simp [hf]
    · unfold pendingInv
      simp

lemma dragInv_startPointerDrag (f : KinFn) (s : DragState) (e : PointerEvent)
    (hsrc : (s._pointerActive || s._keyboardActive) = true) :
    dragInv (startPointerDrag f s e) := by
  have hf := startPointerDrag_fields f s e
  refine ⟨?_, fun _ => hf.1⟩
  unfold activeInv
  rw [hf.1, hf.2.2.2.1, hf.2.2.2.2.1, hsrc]

lemma dragInv_pointerDown (cfg : Config) (f : KinFn) (s : DragState) (e : PointerEvent)
    (h : dragInv s) : dragInv (pointerDown cfg f s e) := by
  unfold pointerDown
  split_ifs with h1 h2 h3
  · exact h
  · exact dragInv_of_active_true _ (pointerDownCapture_active s e) (Or.inl rfl)
  · exact dragInv_of_active_true _ (pointerDownCapture_active s e) (Or.inl rfl)
  · exact dragInv_startPointerDrag f _ e
      (by rw [pointerDownCapture_pointer, Bool.true_or])

lemma dragInv_pointerMove (cfg : Config) (f : KinFn) (s : DragState) (e : PointerEvent)
    (h : dragInv s) : dragInv (pointerMove cfg f s e) := by
  by_cases hacc : moveAccepted s e
  · rw [pointerMove_accepted_eq cfg f s e hacc]
    have hm := moveAccum_frame f s e
    have hpact : (moveAccum f s e)._pointerActive = true := by
      rw [hm.2.1]
      simpa using hacc.1
    unfold postAccum
    split
    · apply dragInv_startPointerDrag
      show ((moveAccum f s e)._pointerActive || (moveAccum f s e)._keyboardActive) = true
      rw [hpact, Bool.true_or]
    · split
      · split
        · split
          · refine ⟨?_, ?_⟩
            · unfold activeInv
              rw [clean_eq]
              simp
            · unfold pendingInv
              rw [clean_eq]
              simp
          · apply dragInv_startPointerDrag
            show ((moveAccum f s e)._pointerActive || (moveAccum f s e)._keyboardActive) = true
            rw [hpact, Bool.true_or]
        · exact dragInv_transfer s _ hm.2.2.2.1 hm.2.1 hm.2.2.1
            hm.2.2.2.2.2.2.1 hm.2.2.2.2.2.2.2.1 h
      · apply dragInv_emit
        intro _
        have ha := h.1
        unfold activeInv at ha ⊢
        rw [hm.2.2.2.1, hm.2.1, hm.2.2.1]
        exact ha
  · unfold pointerMove
    split_ifs with h1 h2 h3
    · exact h
    · exact h
    · exact h
    · exact absurd ⟨h1, h2, h3⟩ hacc

lemma applySwipe_ctrl (cfg : Config) (s : DragState) :
    (applySwipe cfg s)._active = s._active ∧
    (applySwipe cfg s)._pointerActive = s._pointerActive ∧
    (applySwipe cfg s)._keyboardActive = s._keyboardActive := by
  unfold applySwipe swipeX swipeY
  split_ifs <;> simp_all

lemma dragInv_pointerUp (cfg : Config) (f : KinFn) (s : DragState) (e : PointerEvent)
    (h : dragInv s) : dragInv (pointerUp cfg f s e) := by
  unfold pointerUp
  split_ifs with h1 h2
  · exact h
  · exact h
  · unfold pointerUpFlow
    apply dragInv_emit
    intro _
    have hc := applySwipe_ctrl cfg (pointerUpTapped f s e)
    unfold activeInv
    rw [hc.1, hc.2.1, hc.2.2]
    rfl

lemma dragInv_keyDown (f : KinFn) (s : DragState) (e : KeyEvent)
    (h : dragInv s) : dragInv (keyDown f s e) := by
  unfold keyDown
  cases hk : keysDeltaMap e.key with
  | none => exact h
  | some g =>
    apply dragInv_emit
    intro _
    unfold activeInv
    by_cases ha : s._active = true <;>
      simp [startS, computeS_some, dragReset, superReset, ha]

lemma dragInv_keyUp (f : KinFn) (s : DragState) (e : KeyEvent)
    (h : dragInv s) : dragInv (keyUp f s e) := by
  unfold keyUp
  split
  · apply dragInv_emit
    intro _
    unfold activeInv setActive
    simp [computeS_some]
  · exact h

lemma dragInv_cancelRequest (s : DragState) (h : dragInv s) :
    dragInv (cancelRequest s) := by
  unfold cancelRequest
  split
  · exact h
  · exact dragInv_transfer s _ rfl rfl rfl rfl rfl h

lemma dragInv_cancelFire (f : KinFn) (s : DragState) (h : dragInv s) :
    dragInv (cancelFire f s) := by
  unfold cancelFire
  split
  · exact h
  · rw [computeS_none]
    apply dragInv_emit
    intro hfalse
    simp at hfalse

lemma dragInv_delayTimerFire (f : KinFn) (s : DragState) (h : dragInv s) :
    dragInv (delayTimerFire f s) := by
  unfold delayTimerFire
  cases hp : s.pendingDelay with
  | none => exact h
  | some ev =>
    apply dragInv_startPointerDrag
    have hact : s._active = true := h.2 (Or.inl (by rw [hp]; rfl))
    have ha := h.1
    unfold activeInv at ha
    show (s._pointerActive || s._keyboardActive) = true
    rw [← ha, hact]

lemma dragInv_scrollTimerFire (f : KinFn) (s : DragState) (h : dragInv s) :
    dragInv (scrollTimerFire f s) := by
  unfold scrollTimerFire
  cases hp : s.pendingScrollDrag with
  | none => exact h
  | some ev =>
    apply dragInv_startPointerDrag
    have hact : s._active = true := h.2 (Or.inr (by rw [hp]; rfl))
    have ha := h.1
    unfold activeInv at ha
    show (s._pointerActive || s._keyboardActive) = true
    rw [← ha, hact]

/-! ### Claim theorems -/

/-- C10: for every key-up event whose key is one of the four recognized
arrow keys, the handler unconditionally clears the keyboard source flag,
recomputes the active flag as the OR of the source flags, runs a
kinematics pass with the event and emits a state snapshot — even when
`_keyboardActive` was already false and no gesture is active. -/
theorem keyUp_unconditional (f : KinFn) (s : DragState) (e : KeyEvent)
    (hk : (keysDeltaMap e.key).isSome = true) :
    keyUp f s e =
      emit (computeS f (setActive { s with _keyboardActive := false })
        (some (e.etype, e.timeStamp))) ∧
    (keyUp f s e).emitCount = s.emitCount + 1 ∧
    (keyUp f s e)._keyboardActive = false ∧
    (keyUp f s e)._active = s._pointerActive := by
  have h1 : keyUp f s e =
      emit (computeS f (setActive { s with _keyboardActive := false })
        (some (e.etype, e.timeStamp))) := by
    unfold keyUp
    simp [hk]
  refine ⟨h1, ?_, ?_, ?_⟩ <;> rw [h1]
  · simp [computeS_some, setActive]
  · rw [computeS_some]
    unfold emit clean superClean setActive
    split <;> simp
  · rw [computeS_some]
    unfold setActive
    simp

/-- C10 witness: a left-arrow key-up on the idle initial state emits one
snapshot, leaves the keyboard flag clear and the gesture inactive. -/
theorem keyUp_unconditional_witness :
    (keysDeltaMap keyUpLeft.key).isSome = true ∧
    (keyUp constKin initState keyUpLeft).emitCount = initState.emitCount + 1 ∧
    (keyUp constKin initState keyUpLeft)._keyboardActive = false ∧
    (keyUp constKin initState keyUpLeft)._active = initState._pointerActive :=
  have hk : (keysDeltaMap keyUpLeft.key).isSome = true := by decide
  ⟨hk, (keyUp_unconditional constKin initState keyUpLeft hk).2⟩

/-- C9: ignorable inputs cause no state change — pointer events bearing a
pointer id different from the captured id, a pointer-move duplicating the
previous sample (same source type and timestamp), and key events for keys
outside the recognized arrow-key set are dropped without any state
mutation. -/
theorem ignorable_inputs_no_change (cfg : Config) (f : KinFn) (s : DragState)
    (e : PointerEvent) (k : KeyEvent) :
    ((s._pointerId.isSome = true ∧ e.pid ≠ s._pointerId) →
      pointerMove cfg f s e = s ∧ pointerUp cfg f s e = s) ∧
    ((s.etype = some e.etype ∧ e.timeStamp = s.timeStamp) →
      pointerMove cfg f s e = s) ∧
    ((keysDeltaMap k.key).isSome = false → keyDown f s k = s ∧ keyUp f s k = s) := by
  refine ⟨fun hid => ⟨?_, ?_⟩, fun hdup => ?_, fun hkey => ?_⟩
  · unfold pointerMove
    split_ifs <;> rfl
  · unfold pointerUp
    split_ifs <;> rfl
  · unfold pointerMove
    split_ifs <;> rfl
  · have hnone : keysDeltaMap k.key = none := Option.not_isSome_iff_eq_none.mp (by simp [hkey])
    constructor
    · unfold keyDown
      rw [hnone]
    · unfold keyUp
      simp [hkey]

/-- C9 witness: on the dragging state reached by a pointer-down of
pointer 1, a move of foreign pointer 2 changes nothing; a duplicate of
the activation sample changes nothing; an Escape key changes nothing. -/
theorem ignorable_inputs_no_change_witness :
    (pointerMove cfg0 constKin (pointerDown cfg0 constKin initState evDown0) evMoveForeign =
      pointerDown cfg0 constKin initState evDown0) ∧
    (pointerUp cfg0 constKin (pointerDown cfg0 constKin initState evDown0) evMoveForeign =
      pointerDown cfg0 constKin initState evDown0) ∧
    (keyDown constKin (pointerDown cfg0 constKin initState evDown0) keyEscape =
      pointerDown cfg0 constKin initState evDown0) :=
  have h := ignorable_inputs_no_change cfg0 constKin
    (pointerDown cfg0 constKin initState evDown0) evMoveForeign keyEscape
  ⟨(h.1 (by decide)).1, (h.1 (by decide)).2, (h.2.2 (by decide)).1⟩

/-- C7: every arrow-key key-down adds to the accumulated movement a
displacement of magnitude 10 along the key's axis, signed by the key's
direction and scaled by ×10 under the fast (shift) modifier, ×0.1 under
the fine (alt) modifier, ×1 otherwise, the fast modifier taking
precedence; in particular right-arrow yields a delta of `[100, 0]` with
the fast modifier and `[1, 0]` with the fine modifier. -/
theorem keyDown_arrow_displacement (f : KinFn) (s : DragState) (e : KeyEvent) :
    ((e.key = "ArrowRight" →
        (keyDown f s e)._delta = (10 * keyFactor e, 0) ∧
        (keyDown f s e)._movement =
          (if s._active = true then s._movement else (0, 0)) + (10 * keyFactor e, 0)) ∧
      (e.key = "ArrowLeft" →
        (keyDown f s e)._delta = (-(10 * keyFactor e), 0) ∧
        (keyDown f s e)._movement =
          (if s._active = true then s._movement else (0, 0)) + (-(10 * keyFactor e), 0)) ∧
      (e.key = "ArrowUp" →
        (keyDown f s e)._delta = (0, -(10 * keyFactor e)) ∧
        (keyDown f s e)._movement =
          (if s._active = true then s._movement else (0, 0)) + (0, -(10 * keyFactor e))) ∧
      (e.key = "ArrowDown" →
        (keyDown f s e)._delta = (0, 10 * keyFactor e) ∧
        (keyDown f s e)._movement =
          (if s._active = true then s._movement else (0, 0)) + (0, 10 * keyFactor e))) ∧
    (e.key = "ArrowRight" → e.shiftKey = true → (keyDown f s e)._delta = (100, 0)) ∧
    (e.key = "ArrowRight" → e.shiftKey = false → e.altKey = true →
      (keyDown f s e)._delta = (1, 0)) := by
  have base : ∀ g : ℚ → Vec2, keysDeltaMap e.key = some g →
      (keyDown f s e)._delta = g (keyFactor e) ∧
      (keyDown f s e)._movement =
        (if s._active = true then s._movement else (0, 0)) + g (keyFactor e) := by
    intro g hg
    unfold keyDown
    rw [hg]
    unfold startS dragReset superReset
    by_cases ha : s._active = true <;> simp [ha, computeS_some]
  have hr : e.key = "ArrowRight" →
      (keyDown f s e)._delta = (10 * keyFactor e, 0) ∧
      (keyDown f s e)._movement =
        (if s._active = true then s._movement else (0, 0)) + (10 * keyFactor e, 0) := by
    intro h1
    exact base (fun factor => (DISPLACEMENT * factor, 0)) (by simp [keysDeltaMap, h1])
  refine ⟨⟨hr, fun h1 => ?_, fun h1 => ?_, fun h1 => ?_⟩, fun h1 hs => ?_, fun h1 hs ha => ?_⟩
  · exact base (fun factor => (-(DISPLACEMENT * factor), 0)) (by simp [keysDeltaMap, h1])
  · exact base (fun factor => (0, -(DISPLACEMENT * factor))) (by simp [keysDeltaMap, h1])
  · exact base (fun factor => (0, DISPLACEMENT * factor)) (by simp [keysDeltaMap, h1])
  · rw [(hr h1).1]
    norm_num [keyFactor, hs]
  · rw [(hr h1).1]
    norm_num [keyFactor, hs, ha]

/-- C7 witness: from the idle initial state, right-arrow with shift gives
a delta of `[100, 0]`, and right-arrow with alt gives `[1, 0]`. -/
theorem keyDown_arrow_displacement_witness :
    (keyDown constKin initState keyRightFast)._delta = (100, 0) ∧
    (keyDown constKin initState keyRightFine)._delta = (1, 0) :=
  ⟨(keyDown_arrow_displacement constKin initState keyRightFast).2.1 rfl rfl,
   (keyDown_arrow_displacement constKin initState keyRightFine).2.2 rfl rfl rfl⟩

/-- C1: at an accepted pointer-up, after the final kinematics pass the
tap flag is true exactly when the (non-negative, per the kinematics
provider contract) distance is at most 3 on both axes; a per-axis
distance of 4 on either axis yields `tap = false`. -/
theorem pointerUp_tap_test (cfg : Config) (f : KinFn) (s : DragState) (e : PointerEvent)
    (hact : s._pointerActive = true)
    (hid : ¬(s._pointerId.isSome = true ∧ e.pid ≠ s._pointerId))
    (hd1 : 0 ≤ (pointerUpKin f s e).kin._distance.1)
    (hd2 : 0 ≤ (pointerUpKin f s e).kin._distance.2) :
    ((pointerUp cfg f s e).tap = true ↔
      |(pointerUpKin f s e).kin._distance.1| ≤ 3 ∧
      |(pointerUpKin f s e).kin._distance.2| ≤ 3) ∧
    ((pointerUpKin f s e).kin._distance.1 = 4 ∨ (pointerUpKin f s e).kin._distance.2 = 4 →
      (pointerUp cfg f s e).tap = false) := by
  have htap : (pointerUp cfg f s e).tap =
      decide ((pointerUpKin f s e).kin._distance.1 ≤ 3 ∧
              (pointerUpKin f s e).kin._distance.2 ≤ 3) := by
    rw [pointerUp_accepted cfg f s e hact hid]
    unfold pointerUpFlow
    rw [emit_tap, applySwipe_tap, pointerUpTapped_eq]
  constructor
  · rw [htap, abs_of_nonneg hd1, abs_of_nonneg hd2]
    simp [decide_eq_true_iff]
  · intro h4
    rw [htap]
    rcases h4 with h4 | h4
    · rw [h4]
      exact decide_eq_false (by rintro ⟨hc, -⟩; norm_num at hc)
    · rw [h4]
      exact decide_eq_false (by rintro ⟨-, hc⟩; norm_num at hc)

/-- C1 witness: with a kinematics provider reporting a final distance of
`(4, 0)`, the pointer-up ending a drag of pointer 1 yields `tap = false`. -/
theorem pointerUp_tap_test_witness :
    (pointerUp cfg0 kinDist4 (pointerDown cfg0 kinDist4 initState evDown0) evUp1).tap = false :=
  (pointerUp_tap_test cfg0 kinDist4 (pointerDown cfg0 kinDist4 initState evDown0) evUp1
    (by decide) (by decide) (by decide) (by decide)).2 (Or.inl (by decide))

/-- C2: at an accepted pointer-up that is not classified as a filtered
tap and starting from the reset swipe value `[0, 0]`, each swipe
component is set to the measured direction on that axis exactly when the
elapsed time is below the configured swipe duration AND the velocity
magnitude exceeds the configured velocity threshold AND the movement
magnitude exceeds the configured distance threshold on that axis, and
stays 0 otherwise; when the elapsed time is not below the duration
threshold the swipe remains `[0, 0]` regardless of velocity and
movement. -/
theorem pointerUp_swipe_test (cfg : Config) (f : KinFn) (s : DragState) (e : PointerEvent)
    (hact : s._pointerActive = true)
    (hid : ¬(s._pointerId.isSome = true ∧ e.pid ≠ s._pointerId))
    (hsw0 : s.swipe = (0, 0))
    (hnft : ¬((pointerUpTapped f s e).tap = true ∧ cfg.filterTaps = true)) :
    (pointerUp cfg f s e).swipe.1 =
      (if (pointerUpTapped f s e).elapsedTime < cfg.swipeDuration ∧
          |(pointerUpTapped f s e).kin.velocity.1| > cfg.swipeVelocity.1 ∧
          |(pointerUpTapped f s e).kin.movement.1| > cfg.swipeDistance.1
       then (pointerUpTapped f s e).kin.direction.1 else 0) ∧
    (pointerUp cfg f s e).swipe.2 =
      (if (pointerUpTapped f s e).elapsedTime < cfg.swipeDuration ∧
          |(pointerUpTapped f s e).kin.velocity.2| > cfg.swipeVelocity.2 ∧
          |(pointerUpTapped f s e).kin.movement.2| > cfg.swipeDistance.2
       then (pointerUpTapped f s e).kin.direction.2 else 0) ∧
    (¬ (pointerUpTapped f s e).elapsedTime < cfg.swipeDuration →
      (pointerUp cfg f s e).swipe = (0, 0)) := by
  have hswipe : (pointerUp cfg f s e).swipe =
      (applySwipe cfg (pointerUpTapped f s e)).swipe := by
    rw [pointerUp_accepted cfg f s e hact hid]
    unfold pointerUpFlow
    rw [emit_swipe]
  set t := pointerUpTapped f s e with ht
  have htsw : t.swipe = (0, 0) := by rw [ht, pointerUpTapped_swipe, hsw0]
  have happ : (applySwipe cfg t).swipe =
      (if t.elapsedTime < cfg.swipeDuration then (swipeY cfg (swipeX cfg t)).swipe
       else t.swipe) := by
    unfold applySwipe
    rw [if_neg hnft]
    split <;> rfl
  by_cases hel : t.elapsedTime < cfg.swipeDuration
  · have hx := swipeX_frame cfg t
    have hy := swipeY_frame cfg (swipeX cfg t)
    refine ⟨?_, ?_, fun hc => absurd hel hc⟩
    · rw [hswipe, happ, if_pos hel, hy.2.2.2.1, hx.2.2.2.2.1]
      by_cases hcx : |t.kin.velocity.1| > cfg.swipeVelocity.1 ∧
          |t.kin.movement.1| > cfg.swipeDistance.1
      · rw [if_pos hcx, if_pos ⟨hel, hcx⟩]
      · rw [if_neg hcx, if_neg (by rintro ⟨-, h⟩; exact hcx h), htsw]
    · rw [hswipe, happ, if_pos hel, hy.2.2.2.2, hx.2.1, hx.2.2.2.2.2]
      by_cases hcy : |t.kin.velocity.2| > cfg.swipeVelocity.2 ∧
          |t.kin.movement.2| > cfg.swipeDistance.2
      · rw [if_pos hcy, if_pos ⟨hel, hcy⟩]
      · rw [if_neg hcy, if_neg (by rintro ⟨-, h⟩; exact hcy h), htsw]
  · have hz : (pointerUp cfg f s e).swipe = (0, 0) := by
      rw [hswipe, happ, if_neg hel, htsw]
    refine ⟨?_, ?_, fun _ => hz⟩
    · rw [hz, if_neg (by rintro ⟨h, -⟩; exact hel h)]
    · rw [hz, if_neg (by rintro ⟨h, -⟩; exact hel h)]

/-- C2 witness: the specification's example — elapsed time 60 below the
duration threshold 220, velocity 6 against threshold 5, movement 50
against threshold 40 — sets the x swipe component to the measured x
direction 1. -/
theorem pointerUp_swipe_test_witness :
    (pointerUp cfg0 kinSwipeX sDrag1 evUp1).swipe.1 = 1 := by
  have h := pointerUp_swipe_test cfg0 kinSwipeX sDrag1 evUp1
    (by decide) (by decide) (by decide) (by decide)
  have e1 : (pointerUpTapped kinSwipeX sDrag1 evUp1).elapsedTime = 60 := by
    show (pointerUpKin kinSwipeX sDrag1 evUp1).elapsedTime = 60
    unfold pointerUpKin
    rw [computeS_some]
    norm_num [sDrag1, initState, setActive, evUp1]
  have e2 : (pointerUpTapped kinSwipeX sDrag1 evUp1).kin =
      { movement := (50, 0), velocity := (6, 0), direction := (1, 0)
        _distance := (50, 0), axis := some .x } := rfl
  rw [h.1, e1, e2]
  norm_num [cfg0, abs_of_nonneg]

/-- C3: cancellation is idempotent and terminal — after a cancel request
and its deferred callback, one emission occurred with `canceled = true`
and the gesture inactive; a further cancel call is a no-op, and
subsequent pointer-move and pointer-up events leave the state
unchanged. -/
theorem cancel_idempotent_terminal (cfg : Config) (f : KinFn) (s : DragState)
    (e : PointerEvent) (hc : s.canceled = false) (hp : s.pendingCancel = 0) :
    (cancelFire f (cancelRequest s)).canceled = true ∧
    (cancelFire f (cancelRequest s))._active = false ∧
    (cancelFire f (cancelRequest s)).emitCount = s.emitCount + 1 ∧
    cancelRequest (cancelFire f (cancelRequest s)) = cancelFire f (cancelRequest s) ∧
    pointerMove cfg f (cancelFire f (cancelRequest s)) e = cancelFire f (cancelRequest s) ∧
    pointerUp cfg f (cancelFire f (cancelRequest s)) e = cancelFire f (cancelRequest s) := by
  have h1 : cancelRequest s = { s with pendingCancel := s.pendingCancel + 1 } := by
    unfold cancelRequest
    simp [hc]
  have h2 : cancelFire f (cancelRequest s) =
      { s with pendingCancel := 0, canceled := true, _active := false
               _pointerActive := false, _keyboardActive := false
               pendingDelay := none, pendingScrollDrag := none
               emitCount := s.emitCount + 1 } := by
    rw [h1]
    unfold cancelFire
    rw [if_neg (by simp), computeS_none, emit_inactive _ rfl]
    simp [hp]
  refine ⟨by rw [h2], by rw [h2], by rw [h2], ?_, ?_, ?_⟩
  · rw [h2]
    unfold cancelRequest
    simp
  · rw [h2]
    unfold pointerMove
    simp
  · rw [h2]
    unfold pointerUp
    simp

/-- C3 witness: canceling the concrete mid-drag state produces one
terminal canceled emission, and a later pointer-move is a no-op. -/
theorem cancel_idempotent_terminal_witness :
    (cancelFire constKin (cancelRequest sDrag1)).canceled = true ∧
    cancelRequest (cancelFire constKin (cancelRequest sDrag1)) =
      cancelFire constKin (cancelRequest sDrag1) ∧
    pointerMove cfg0 constKin (cancelFire constKin (cancelRequest sDrag1)) evMove1 =
      cancelFire constKin (cancelRequest sDrag1) :=
  have h := cancel_idempotent_terminal cfg0 constKin sDrag1 evMove1 rfl rfl
  ⟨h.1, h.2.2.2.1, h.2.2.2.2.1⟩

/-- C5: in the scroll-pending phase (`preventScroll` configured, gesture
not yet authoritative, no delay pending), an accepted move whose computed
axis matches the prevented axis (or configuration `xy`) aborts the
gesture — inactive, cleaned up, never Dragging, no emission; a
non-matching axis cancels the forced-activation timer and transitions to
Dragging with the current event; an undetermined axis produces no
emission while the delta is still accumulated and forwarded to the
kinematics provider. -/
theorem scroll_pending_axis_decision (cfg : Config) (f : KinFn) (s : DragState)
    (e : PointerEvent) (hacc : moveAccepted s e) (hps : cfg.preventScroll = true)
    (hnp : s._preventScroll = false) (hnd : s._delayed = false) :
    (∀ a : Axis2, (moveAccum f s e).kin.axis = some a →
      (axisBlocked a cfg.preventScrollAxis = true →
        pointerMove cfg f s e = clean { moveAccum f s e with _active := false } ∧
        (pointerMove cfg f s e)._active = false ∧
        (pointerMove cfg f s e)._pointerActive = false ∧
        (pointerMove cfg f s e)._keyboardActive = false ∧
        (pointerMove cfg f s e)._preventScroll = false ∧
        (pointerMove cfg f s e).pendingScrollDrag = none ∧
        (pointerMove cfg f s e).emitCount = s.emitCount) ∧
      (axisBlocked a cfg.preventScrollAxis = false →
        pointerMove cfg f s e =
          startPointerDrag f { moveAccum f s e with pendingScrollDrag := none } e ∧
        (pointerMove cfg f s e)._active = true ∧
        (pointerMove cfg f s e)._preventScroll = true ∧
        (pointerMove cfg f s e).pendingScrollDrag = none ∧
        (pointerMove cfg f s e).emitCount = s.emitCount + 1)) ∧
    ((moveAccum f s e).kin.axis = none →
      pointerMove cfg f s e = moveAccum f s e ∧
      (pointerMove cfg f s e)._movement = s._movement + moveDelta s e ∧
      (pointerMove cfg f s e).kin =
        f s.kin (moveDelta s e) (s._movement + moveDelta s e)
          (s.elapsedTime + (e.timeStamp - s.timeStamp)) ∧
      (pointerMove cfg f s e).emitCount = s.emitCount ∧
      (pointerMove cfg f s e)._active = s._active ∧
      (pointerMove cfg f s e)._preventScroll = false) := by
  have hm := moveAccum_frame f s e
  have hpost : pointerMove cfg f s e = postAccum cfg f (moveAccum f s e) e :=
    pointerMove_accepted_eq cfg f s e hacc
  have hdel : (moveAccum f s e)._delayed = false := by rw [hm.2.2.2.2.2.1, hnd]
  have hnps : (moveAccum f s e)._preventScroll = false := by rw [hm.2.2.2.2.1, hnp]
  constructor
  · intro a haxis
    constructor
    · intro hb
      have hbranch : pointerMove cfg f s e =
          clean { moveAccum f s e with _active := false } := by
        rw [hpost]
        unfold postAccum
        rw [if_neg (by rw [hdel]; exact Bool.false_ne_true), if_pos ⟨hps, hnps⟩, haxis]
        simp [hb]
      refine ⟨hbranch, ?_, ?_, ?_, ?_, ?_, ?_⟩ <;> rw [hbranch, clean_eq] <;> simp [hnps, hm.2.2.2.2.2.2.2.2.1]
    · intro hb
      have hbranch : pointerMove cfg f s e =
          startPointerDrag f { moveAccum f s e with pendingScrollDrag := none } e := by
        rw [hpost]
        unfold postAccum
        rw [if_neg (by rw [hdel]; exact Bool.false_ne_true), if_pos ⟨hps, hnps⟩, haxis]
        simp [hb]
      have hf := startPointerDrag_fields f { moveAccum f s e with pendingScrollDrag := none } e
      refine ⟨hbranch, ?_, ?_, ?_, ?_⟩ <;> rw [hbranch]
      · exact hf.1
      · exact hf.2.1
      · rw [hf.2.2.2.2.2.2.1]
      · rw [hf.2.2.2.2.2.2.2.2]
        simp [hm.2.2.2.2.2.2.2.2.1]
  · intro haxis
    have hbranch : pointerMove cfg f s e = moveAccum f s e := by
      rw [hpost]
      unfold postAccum
      rw [if_neg (by rw [hdel]; exact Bool.false_ne_true), if_pos ⟨hps, hnps⟩, haxis]
    refine ⟨hbranch, ?_, ?_, ?_, ?_, ?_⟩ <;> rw [hbranch]
    · exact hm.1
    · exact hm.2.2.2.2.2.2.2.2.2.2
    · exact hm.2.2.2.2.2.2.2.2.1
    · exact hm.2.2.2.1
    · exact hnps

/-- C5 witness: with scroll prevention configured on axis y, a first
accepted move resolving the axis to y aborts the gesture (inactive, never
Dragging, nothing emitted), while one resolving the axis to x transitions
to Dragging and emits. -/
theorem scroll_pending_axis_decision_witness :
    (pointerMove cfgScroll kinAxisY sPend1 evMove1)._active = false ∧
    (pointerMove cfgScroll kinAxisY sPend1 evMove1)._preventScroll = false ∧
    (pointerMove cfgScroll kinAxisY sPend1 evMove1).emitCount = sPend1.emitCount ∧
    (pointerMove cfgScroll kinAxisX sPend1 evMove1)._active = true ∧
    (pointerMove cfgScroll kinAxisX sPend1 evMove1)._preventScroll = true ∧
    (pointerMove cfgScroll kinAxisX sPend1 evMove1).emitCount = sPend1.emitCount + 1 :=
  have hy := (scroll_pending_axis_decision cfgScroll kinAxisY sPend1 evMove1
    (by decide) rfl rfl rfl).1 Axis2.y rfl
  have hx := (scroll_pending_axis_decision cfgScroll kinAxisX sPend1 evMove1
    (by decide) rfl rfl rfl).1 Axis2.x rfl
  ⟨(hy.1 rfl).2.1, (hy.1 rfl).2.2.2.2.1, (hy.1 rfl).2.2.2.2.2.2,
   (hx.2 rfl).2.1, (hx.2 rfl).2.2.1, (hx.2 rfl).2.2.2.2⟩

/-- C6: with a positive configured delay, a pointer-down enters the
delay-pending phase without emitting; an accepted pointer-move before the
timer fires cancels the pending delay timer and transitions to Dragging
immediately using that move event; if no movement occurs, the timer fire
starts the drag using the pointer-down event captured at scheduling
time. -/
theorem delay_pending_preemption (cfg : Config) (f : KinFn) (s : DragState)
    (e : PointerEvent) (ev : PointerEvent) :
    (cfg.preventScroll = false → 0 < cfg.delay → s._pointerActive = false →
      (pointerDown cfg f s e)._delayed = true ∧
      (pointerDown cfg f s e).pendingDelay = some e ∧
      (pointerDown cfg f s e).emitCount = s.emitCount) ∧
    (s._delayed = true → moveAccepted s e →
      pointerMove cfg f s e =
        startPointerDrag f { moveAccum f s e with pendingDelay := none } e ∧
      (pointerMove cfg f s e).pendingDelay = none ∧
      (pointerMove cfg f s e)._delayed = false ∧
      (pointerMove cfg f s e)._active = true ∧
      (pointerMove cfg f s e)._preventScroll = true ∧
      (pointerMove cfg f s e).timeStamp = e.timeStamp ∧
      (pointerMove cfg f s e).emitCount = s.emitCount + 1) ∧
    (s.pendingDelay = some ev →
      delayTimerFire f s = startPointerDrag f { s with pendingDelay := none } ev ∧
      (delayTimerFire f s)._active = true ∧
      (delayTimerFire f s)._delayed = false ∧
      (delayTimerFire f s)._preventScroll = true ∧
      (delayTimerFire f s).timeStamp = ev.timeStamp ∧
      (delayTimerFire f s).emitCount = s.emitCount + 1) := by
  refine ⟨fun hps hd hp => ?_, fun hdel hacc => ?_, fun hpend => ?_⟩
  · unfold pointerDown
    rw [if_neg (by simp [hp]), if_neg (by simp [hps]), if_pos hd]
    unfold setupDelayTrigger pointerDownCapture startS
    by_cases ha : s._active <;> simp [ha, dragReset, superReset]
  · have hm := moveAccum_frame f s e
    have hbranch : pointerMove cfg f s e =
        startPointerDrag f { moveAccum f s e with pendingDelay := none } e := by
      rw [pointerMove_accepted_eq cfg f s e hacc]
      unfold postAccum
      rw [if_pos (by rw [hm.2.2.2.2.2.1, hdel])]
    have hf := startPointerDrag_fields f { moveAccum f s e with pendingDelay := none } e
    refine ⟨hbranch, ?_, ?_, ?_, ?_, ?_, ?_⟩ <;> rw [hbranch]
    · rw [hf.2.2.2.2.2.1]
    · exact hf.2.2.1
    · exact hf.1
    · exact hf.2.1
    · exact hf.2.2.2.2.2.2.2.1
    · rw [hf.2.2.2.2.2.2.2.2]
      simp [hm.2.2.2.2.2.2.2.2.1]
  · have hbranch : delayTimerFire f s =
        startPointerDrag f { s with pendingDelay := none } ev := by
      unfold delayTimerFire
      rw [hpend]
    have hf := startPointerDrag_fields f { s with pendingDelay := none } ev
    refine ⟨hbranch, ?_, ?_, ?_, ?_, ?_⟩ <;> rw [hbranch]
    · exact hf.1
    · exact hf.2.2.1
    · exact hf.2.1
    · exact hf.2.2.2.2.2.2.2.1
    · exact hf.2.2.2.2.2.2.2.2

/-- C6 witness: with `delay = 200`, a pointer-down enters delay-pending
without emitting; a move at `t = 20` preempts the timer and activates
with that move event's timestamp; with no movement, the timer fire
activates with the captured pointer-down event's timestamp. -/
theorem delay_pending_preemption_witness :
    (pointerDown cfgDelay constKin initState evDown0)._delayed = true ∧
    (pointerMove cfgDelay constKin sDelay1 evMove1)._active = true ∧
    (pointerMove cfgDelay constKin sDelay1 evMove1).pendingDelay = none ∧
    (pointerMove cfgDelay constKin sDelay1 evMove1).timeStamp = evMove1.timeStamp ∧
    (delayTimerFire constKin sDelay1)._active = true ∧
    (delayTimerFire constKin sDelay1).timeStamp = evDown0.timeStamp :=
  have h0 := (delay_pending_preemption cfgDelay constKin initState evDown0 evDown0).1
    rfl (by norm_num [cfgDelay, cfg0]) rfl
  have h1 := (delay_pending_preemption cfgDelay constKin sDelay1 evMove1 evDown0).2.1
    rfl (by decide)
  have h2 := (delay_pending_preemption cfgDelay constKin sDelay1 evMove1 evDown0).2.2 rfl
  ⟨h0.1, h1.2.2.2.1, h1.2.1, h1.2.2.2.2.2.1, h2.2.1, h2.2.2.2.2.1⟩

/-- C8: over every chain of accepted pointer-move events, the raw
accumulated movement equals its starting value plus the order-sensitive
sum of the per-event deltas (each delta being the pointer-locked relative
movement or the difference of consecutive absolute positions). -/
theorem movement_is_sum_of_deltas (cfg : Config) (f : KinFn) (s : DragState)
    (es : List PointerEvent) (h : acceptedAlong cfg f s es) :
    (runMoves cfg f s es)._movement = s._movement + (deltasAlong cfg f s es).sum := by
  induction es generalizing s with
  | nil => simp [runMoves, deltasAlong]
  | cons e es ih =>
    obtain ⟨h1, h2⟩ := h
    have hstep : runMoves cfg f s (e :: es) = runMoves cfg f (pointerMove cfg f s e) es := rfl
    rw [hstep, ih (pointerMove cfg f s e) h2, pointerMove_movement_step cfg f s e h1]
    show _ = s._movement + (moveDelta s e :: deltasAlong cfg f (pointerMove cfg f s e) es).sum
    rw [List.sum_cons, add_assoc]

/-- C8 witness: two accepted moves of pointer 1 from the concrete
dragging state accumulate exactly the sum of their two deltas. -/
theorem movement_is_sum_of_deltas_witness :
    (runMoves cfg0 constKin sDrag1 [evMove1, evMove2])._movement =
      sDrag1._movement + (deltasAlong cfg0 constKin sDrag1 [evMove1, evMove2]).sum :=
  movement_is_sum_of_deltas cfg0 constKin sDrag1 [evMove1, evMove2] (by decide)

/-- C4 counterexample: the claim includes the `clean` handler, but
`clean` clears both source flags without recomputing the active flag:
invoking it on the active dragging state reached by a plain pointer-down
leaves `_active = true` with both source flags false, so the OR invariant
fails right after `clean`. -/
theorem active_flag_or_counterexample :
    ¬ activeInv (clean (pointerDown cfg0 constKin initState evDown0)) := by decide

/-- C4 (amended): starting from the initial state, the invariant
`_active = _pointerActive || _keyboardActive` (together with the timer
bookkeeping it needs) is preserved by every drag-engine handler other
than the bare `clean` teardown: pointer down/move/up, key down/up, both
halves of cancellation, and both activation timers. -/
theorem active_flag_or_invariant (cfg : Config) (f : KinFn) :
    dragInv initState ∧
    ∀ s t : DragState, dragInv s → HandlerStep cfg f s t → dragInv t := by
  refine ⟨by decide, fun s t h hstep => ?_⟩
  cases hstep with
  | pointerDownStep e => exact dragInv_pointerDown cfg f s e h
  | pointerMoveStep e => exact dragInv_pointerMove cfg f s e h
  | pointerUpStep e => exact dragInv_pointerUp cfg f s e h
  | keyDownStep e => exact dragInv_keyDown f s e h
  | keyUpStep e => exact dragInv_keyUp f s e h
  | cancelRequestStep => exact dragInv_cancelRequest s h
  | cancelFireStep => exact dragInv_cancelFire f s h
  | delayTimerStep => exact dragInv_delayTimerFire f s h
  | scrollTimerStep => exact dragInv_scrollTimerFire f s h

/-- C4 witness: one pointer-down step from the initial state preserves
the OR invariant. -/
theorem active_flag_or_invariant_witness :
    dragInv (pointerDown cfg0 constKin initState evDown0) :=
  (active_flag_or_invariant cfg0 constKin).2 initState
    (pointerDown cfg0 constKin initState evDown0)
    (active_flag_or_invariant cfg0 constKin).1
    (HandlerStep.pointerDownStep initState evDown0)

end DragGesture
